import Mathlib

/-!
Verification development for the ZenSupply backend (`main.py`, `schemas.py`):
a shallow embedding of the catalog seeding, catalog reading, order intake,
feedback listing and diagnostics logic, with theorems settling the stated
data-consistency properties.

Modelling conventions:
* Python floats are modelled as rationals (`ℚ`); `round(x, 2)` is modelled by
  `round2` (round half to even at 2 decimal places, the Python default).
* MongoDB documents are association lists of field name to `BVal` (a BSON-like
  value); `$set` updates, projections and `$in` filters are given their MongoDB
  field-level semantics.
* The store primitives `create_document` (from the repository's `database`
  module, which is not part of the two source files) are modelled from the
  spec: insertion appends the document to the named collection.
* Exception flow (`try`/`except`) is modelled with `Except`; handlers that
  never raise are total functions into `Except` whose result is provably `ok`.
-/

namespace ZenSupply

/-- A BSON-like value stored in a document field. -/
inductive BVal : Type where
  | str : String → BVal
  | num : ℚ → BVal
  | bool : Bool → BVal
  | null : BVal
  | arr : List BVal → BVal
  | obj : List (String × BVal) → BVal

/-- A MongoDB document: an ordered association list of fields. -/
abbrev Doc : Type := List (String × BVal)

/-- Read a field of a document (first occurrence wins, as in a dict). -/
def getField : Doc → String → Option BVal
  | [], _ => none
  | (k', v) :: rest, k => if k' = k then some v else getField rest k

/-- Set a field of a document: replace the first occurrence in place, or
append the field if absent (Python dict assignment / MongoDB field set). -/
def setField : Doc → String → BVal → Doc
  | [], k, v => [(k, v)]
  | (k', v') :: rest, k, v =>
      if k' = k then (k, v) :: rest else (k', v') :: setField rest k v

/-- Remove a field of a document (Python `dict.pop`). -/
def removeField : Doc → String → Doc
  | [], _ => []
  | (k', v') :: rest, k =>
      if k' = k then rest else (k', v') :: removeField rest k

/-- MongoDB `update_one(filter, {"$set": u})` semantics on a single document:
every field of `u` is written into the target, field by field; fields of the
target that `u` does not mention are left untouched. -/
def applySet (d u : Doc) : Doc :=
  u.foldl (fun acc kv => setField acc kv.1 kv.2) d

/-- `True` iff the document's `title` field is the string `t`
(`main.py`: the membership test `prod["title"] not in titles_in_db` and the
filter `{"title": prod["title"]}` compare against the stored title value). -/
def docTitleIs (d : Doc) (t : String) : Bool :=
  match getField d "title" with
  | some (BVal.str s) => s = t
  | _ => false

/-- `db.product.update_one({"title": t}, {"$set": u})`: apply the `$set`
update to the first document whose title is `t`, leaving the rest alone. -/
def updateOneByTitle : List Doc → String → Doc → List Doc
  | [], _, _ => []
  | d :: rest, t, u =>
      if docTitleIs d t then applySet d u :: rest
      else d :: updateOneByTitle rest t u

/-- `main.py` line 48: the catalog allow-list. -/
def WANTED_TITLES : List String := ["Skeleton Spawner", "Money", "Elytra"]

/-- `main.py` line 51. -/
def PRICE_SPAWNER_UNIT : ℚ := 0.025

/-- `main.py` line 52 (27x bundle). -/
def PRICE_SPAWNER_SHULKER : ℚ := 40.0

/-- `main.py` line 53. -/
def PRICE_MONEY_PER_MILLION : ℚ := 0.03

/-- `main.py` line 54. -/
def PRICE_ELYTRA : ℚ := 12.0

/-- First entry of `DEFAULT_PRODUCTS` (`main.py` lines 57-70). -/
def skeletonSpawnerDoc : Doc :=
  [("title", BVal.str "Skeleton Spawner"),
   ("description", BVal.str "Placeable spawner for efficient bone and arrow farms."),
   ("price", BVal.num PRICE_SPAWNER_UNIT),
   ("category", BVal.str "Spawners"),
   ("image", BVal.str "/assets/skeleton-spawner.png"),
   ("badge", BVal.str "Popular"),
   ("in_stock", BVal.bool true),
   ("variants", BVal.arr
     [BVal.obj [("id", BVal.str "single"), ("label", BVal.str "Single"),
                ("unit_price", BVal.num PRICE_SPAWNER_UNIT)],
      BVal.obj [("id", BVal.str "shulker"), ("label", BVal.str "Shulker (27x)"),
                ("bundle_qty", BVal.num 27),
                ("bundle_price", BVal.num PRICE_SPAWNER_SHULKER)]])]

/-- Second entry of `DEFAULT_PRODUCTS` (`main.py` lines 71-79). -/
def moneyDoc : Doc :=
  [("title", BVal.str "Money"),
   ("description", BVal.str "In-game currency to boost your balance (priced per 1M)."),
   ("price", BVal.num PRICE_MONEY_PER_MILLION),
   ("category", BVal.str "Money"),
   ("image", BVal.str "/assets/money-5m.png"),
   ("badge", BVal.str "Best value"),
   ("in_stock", BVal.bool true)]

/-- Third entry of `DEFAULT_PRODUCTS` (`main.py` lines 80-88). -/
def elytraDoc : Doc :=
  [("title", BVal.str "Elytra"),
   ("description", BVal.str "Soar across the map with a pristine Elytra."),
   ("price", BVal.num PRICE_ELYTRA),
   ("category", BVal.str "Gear"),
   ("image", BVal.str "/assets/elytra.png"),
   ("badge", BVal.null),
   ("in_stock", BVal.bool true)]

/-- `main.py` lines 56-89: the canonical catalog. -/
def DEFAULT_PRODUCTS : List Doc := [skeletonSpawnerDoc, moneyDoc, elytraDoc]

/-- `ensure_seed_products` (`main.py` lines 92-108), on the success path of
every store operation (exception flow is modelled separately by
`ensure_seed_productsE`).  `titles_in_db` is computed once from the initial
collection; each canonical product whose title is absent from it is inserted
(`create_document` — modelled from the spec: insertion appends the document
to the collection), and each canonical product whose title is present is
applied as a `$set` update to the first document carrying that title. -/
def ensure_seed_products (products : List Doc) : List Doc :=
  DEFAULT_PRODUCTS.foldl
    (fun ps prod =>
      match getField prod "title" with
      | some (BVal.str t) =>
          if (products.any fun d => docTitleIs d t) = false then
            ps ++ [prod]
          else
            updateOneByTitle ps t prod
      | _ => ps)
    products

/-- The `$in` filter of `list_products`: the document's title is one of the
allow-listed strings. -/
def titleWanted (d : Doc) : Bool :=
  match getField d "title" with
  | some (BVal.str t) => WANTED_TITLES.contains t
  | _ => false

/-- Model of Python `str` applied to a stored field value (used only for the
internal identifier; its exact text is irrelevant to every claim). -/
def bvalToStr : BVal → String
  | BVal.str s => s
  | BVal.num q => toString q
  | BVal.bool b => toString b
  | BVal.null => "None"
  | BVal.arr _ => "<arr>"
  | BVal.obj _ => "<obj>"

/-- `main.py` lines 125-127: `p["id"] = str(p.pop("_id"))` when `_id` is
present. -/
def rewriteId (d : Doc) : Doc :=
  match getField d "_id" with
  | some v => setField (removeField d "_id") "id" (BVal.str (bvalToStr v))
  | none => d

/-- Response body of `GET /products`. -/
structure ProductsResp where
  items : List Doc

/-- `list_products` (`main.py` lines 119-128) on the success path of every
store operation: seed, then return the allow-listed documents with the
internal identifier rewritten.  Returns the response together with the
product collection as left by seeding. -/
def list_products (products : List Doc) : ProductsResp × List Doc :=
  let products' := ensure_seed_products products
  (⟨(products'.filter titleWanted).map rewriteId⟩, products')

/-- Titles (of string type) of the stored documents, in order. -/
def productTitles (products : List Doc) : List String :=
  products.filterMap fun d =>
    match getField d "title" with
    | some (BVal.str t) => some t
    | _ => none

/-- An HTTP error raised by a handler (`HTTPException(status_code, detail)`,
or the validation layer's rejection). -/
structure HErr where
  status : Nat
  detail : String
deriving DecidableEq

/-- Python `round(q, 2)`: round to 2 decimal places, ties to even
(the float value is modelled as a rational). -/
def round2 (q : ℚ) : ℚ :=
  ((if q * 100 - (⌊q * 100⌋ : ℚ) < 1 / 2 then ⌊q * 100⌋
    else if 1 / 2 < q * 100 - (⌊q * 100⌋ : ℚ) then ⌊q * 100⌋ + 1
    else if ⌊q * 100⌋ % 2 = 0 then ⌊q * 100⌋ else ⌊q * 100⌋ + 1 : ℤ) : ℚ) / 100

/-- `OrderItem` (`main.py` lines 24-30). -/
structure OrderItem where
  product_id : String
  name : String
  price : ℚ
  quantity : ℤ
  variant_id : Option String
  variant_label : Option String

/-- The validation the schema layer imposes on an `OrderItem`: the only field
constraint declared is `quantity: int = Field(ge=1)`; `price` carries no
bound. -/
def OrderItem.validPayload (i : OrderItem) : Prop := 1 ≤ i.quantity

/-- `CreateOrderRequest` (`main.py` lines 32-37). -/
structure CreateOrderRequest where
  minecraft_username : String
  discord : Option String
  email : Option String
  items : List OrderItem
  notes : Option String

/-- The validation the schema layer imposes on a `CreateOrderRequest`:
field-level constraints of the item model, applied to each item. -/
def CreateOrderRequest.validPayload (r : CreateOrderRequest) : Prop :=
  ∀ i ∈ r.items, i.validPayload

/-- `Product` (`schemas.py` lines 6-13). -/
structure Product where
  title : String
  description : Option String
  price : ℚ
  category : String
  image : Option String
  badge : Option String
  in_stock : Bool

/-- The validation the schema layer imposes on a catalog `Product`:
`price: float = Field(..., ge=0)`. -/
def Product.validPayload (p : Product) : Prop := 0 ≤ p.price

/-- `sum(i.price * i.quantity for i in payload.items)` (`main.py` line 138). -/
def orderTotal (items : List OrderItem) : ℚ :=
  (items.map fun i => i.price * (i.quantity : ℚ)).sum

/-- The order document persisted by `create_order` (`main.py` lines 139-148). -/
structure OrderDoc where
  minecraft_username : String
  discord : Option String
  email : Option String
  items : List OrderItem
  total_amount : ℚ
  status : String
  notes : Option String
  created_at : ℤ

/-- Response body of `POST /orders`. -/
structure OrderResp where
  order_id : String
  status : String
deriving DecidableEq

/-- `create_order` (`main.py` lines 133-153) on the success path of the store
write.  `now` is the server timestamp (`datetime.utcnow()`); `newId` is the
identifier the store assigns (`create_document` — modelled from the spec:
insertion appends the document to the collection and returns a generated
identifier).  Returns the handler result together with the order collection
after the call. -/
def create_order (payload : CreateOrderRequest) (orders : List OrderDoc)
    (now : ℤ) (newId : String) : Except HErr OrderResp × List OrderDoc :=
  if payload.items.isEmpty then
    (Except.error ⟨400, "No items in order"⟩, orders)
  else
    let doc : OrderDoc :=
      { minecraft_username := payload.minecraft_username,
        discord := payload.discord,
        email := payload.email,
        items := payload.items,
        total_amount := round2 (orderTotal payload.items),
        status := "pending",
        notes := payload.notes,
        created_at := now }
    (Except.ok ⟨newId, "received"⟩, orders ++ [doc])

/-- A stored feedback document, as shaped by `submit_feedback`
(`main.py` lines 158-163) plus the store identifier. -/
structure FeedbackDoc where
  oid : Option String
  rating : ℤ
  comment : Option String
  minecraft_username : Option String
  created_at : ℤ
deriving DecidableEq

/-- A feedback record as returned by `GET /feedbacks`: the internal
identifier rewritten to `id` (`None` when absent). -/
structure FeedbackOut where
  id : Option String
  rating : ℤ
  comment : Option String
  minecraft_username : Option String
  created_at : ℤ
deriving DecidableEq

/-- `f["id"] = str(f.pop("_id")) if "_id" in f else None` (`main.py` line 180). -/
def feedbackOut (f : FeedbackDoc) : FeedbackOut :=
  ⟨f.oid, f.rating, f.comment, f.minecraft_username, f.created_at⟩

/-- The sort order of `.sort("created_at", -1)`: newest first. -/
def newerFirst (a b : FeedbackDoc) : Prop := b.created_at ≤ a.created_at

instance : DecidableRel newerFirst := fun a b => Int.decLe b.created_at a.created_at

instance : IsTotal FeedbackDoc newerFirst :=
  ⟨fun a b => le_total b.created_at a.created_at⟩

instance : IsTrans FeedbackDoc newerFirst :=
  ⟨fun _ _ _ h1 h2 => le_trans h2 h1⟩

/-- FastAPI `Query(default, ge=lo, le=hi)` on an integer query parameter:
an absent parameter takes the default; a supplied value outside `[lo, hi]`
is rejected with a 422 validation error (FastAPI validates, it does not
clamp). -/
def validateQueryInt (supplied : Option ℤ) (dflt lo hi : ℤ) : Except HErr ℤ :=
  match supplied with
  | none => Except.ok dflt
  | some v =>
      if lo ≤ v ∧ v ≤ hi then Except.ok v
      else Except.error ⟨422, "validation error"⟩

/-- Response body of `GET /feedbacks`. -/
structure FeedbacksResp where
  items : List FeedbackOut
deriving DecidableEq

/-- The store query of `list_feedbacks` (`main.py` lines 177-181):
`find({"rating": {"$gte": min_rating}}).sort("created_at", -1).limit(limit)`,
then the per-record identifier rewrite.  The sort is modelled by insertion
sort on the newest-first order. -/
def listFeedbacksQuery (feedbacks : List FeedbackDoc) (min_rating limit : ℤ) :
    List FeedbackOut :=
  ((List.insertionSort newerFirst
      (feedbacks.filter fun f => decide (min_rating ≤ f.rating))).take
    limit.toNat).map feedbackOut

/-- `list_feedbacks` (`main.py` lines 171-184): query-parameter validation
(performed by FastAPI before the handler body runs), the `db is None`
short-circuit, then the store query, on the success path of the store read. -/
def list_feedbacks (store : Option (List FeedbackDoc))
    (min_rating limit : Option ℤ) : Except HErr FeedbacksResp :=
  match validateQueryInt min_rating 4 1 5 with
  | Except.error err => Except.error err
  | Except.ok m =>
      match validateQueryInt limit 100 1 500 with
      | Except.error err => Except.error err
      | Except.ok l =>
          match store with
          | none => Except.ok ⟨[]⟩
          | some feedbacks => Except.ok ⟨listFeedbacksQuery feedbacks m l⟩

/-! ### Exception-flow models

The handlers below are re-embedded over a behaviour record that chooses, for
each store primitive the handler invokes, whether it succeeds (and with what
value) or raises (and with what message).  This makes the `try`/`except`
structure of the source the object of study. -/

/-- A store operation attempted during seeding. -/
inductive SeedOp where
  | findTitles : SeedOp
  | insert : String → SeedOp
  | update : String → SeedOp
deriving DecidableEq

/-- The behaviour of the store during one run of `ensure_seed_products`:
availability of `db`, the outcome of the title projection query, and the
outcome of each per-title insert and update. -/
structure SeedBehaviour where
  dbAvailable : Bool
  findTitlesResult : Except String (List String)
  insertResult : String → Except String String
  updateResult : String → Except String Unit

/-- `except Exception: pass` — fold any error into success. -/
def swallow (r : Except String Unit) : Except String Unit :=
  match r with
  | Except.error _ => Except.ok ()
  | Except.ok u => Except.ok u

/-- The `for prod in DEFAULT_PRODUCTS` loop of `ensure_seed_products`
(`main.py` lines 98-106): a failing `create_document` propagates (aborting
the rest of the loop); a failing `update_one` is swallowed by the inner
`try`/`except` and the loop continues.  Returns the loop outcome and the
store operations attempted, in order. -/
def seedLoopE (b : SeedBehaviour) (titles : List String) :
    List Doc → Except String Unit × List SeedOp
  | [] => (Except.ok (), [])
  | prod :: rest =>
      match getField prod "title" with
      | some (BVal.str t) =>
          if titles.contains t = false then
            match b.insertResult t with
            | Except.error e => (Except.error e, [SeedOp.insert t])
            | Except.ok _ =>
                let r := seedLoopE b titles rest
                (r.1, SeedOp.insert t :: r.2)
          else
            let r := seedLoopE b titles rest
            (r.1, SeedOp.update t :: r.2)
      | _ => (Except.error "KeyError", [])

/-- `ensure_seed_products` (`main.py` lines 92-108) with explicit exception
flow: a `None` store returns immediately; the whole body is wrapped in
`try ... except Exception: pass`.  Returns the (never-failing) outcome and
the store operations attempted. -/
def ensure_seed_productsE (b : SeedBehaviour) : Except String Unit × List SeedOp :=
  if b.dbAvailable = false then (Except.ok (), [])
  else
    match b.findTitlesResult with
    | Except.error _ => (Except.ok (), [SeedOp.findTitles])
    | Except.ok titles =>
        let r := seedLoopE b titles DEFAULT_PRODUCTS
        (swallow r.1, SeedOp.findTitles :: r.2)

/-- The behaviour of the store during one run of `list_products`. -/
structure ListBehaviour where
  seed : SeedBehaviour
  findWantedResult : Except String (List Doc)

/-- `list_products` (`main.py` lines 119-128) with explicit exception flow:
seeding runs first (and never raises, see `ensure_seed_productsE`); with no
store the handler returns an empty item list; a failing find surfaces as an
HTTP 500 with the error text. -/
def list_productsE (b : ListBehaviour) : Except HErr ProductsResp :=
  let _seeded := ensure_seed_productsE b.seed
  if b.seed.dbAvailable = false then Except.ok ⟨[]⟩
  else
    match b.findWantedResult with
    | Except.error e => Except.error ⟨500, e⟩
    | Except.ok ps => Except.ok ⟨ps.map rewriteId⟩

/-- The behaviour of the environment during one run of `test_database`:
availability of `db`, the `db.name` attribute when present, the outcome of
`list_collection_names()`, and whether the two configuration environment
variables are set. -/
structure TestBehaviour where
  dbAvailable : Bool
  dbName : Option String
  listCollectionsResult : Except String (List String)
  envUrlSet : Bool
  envNameSet : Bool

/-- The flat diagnostic object returned by `GET /test`. -/
structure TestResponse where
  backend : String
  database : String
  database_url : Option String
  database_name : Option String
  connection_status : String
  collections : List String
deriving DecidableEq

/-- Python string slicing `s[:n]`: the first `n` characters. -/
def strTrunc (s : String) (n : Nat) : String := String.mk (s.data.take n)

/-- The initial `response` dict of `test_database` (`main.py` lines 189-196). -/
def testResponseInit : TestResponse :=
  { backend := "✅ Running",
    database := "❌ Not Available",
    database_url := none,
    database_name := none,
    connection_status := "Not Connected",
    collections := [] }

/-- The outer `try` body of `test_database` (`main.py` lines 198-211).
Within the model the only primitive that can raise is
`list_collection_names()`, and it is guarded by the inner `try`/`except`,
so the body never fails; the outer handler is still embedded in
`test_database` below, mirroring the source. -/
def test_databaseBody (b : TestBehaviour) (r0 : TestResponse) :
    Except String TestResponse :=
  if b.dbAvailable then
    let ra : TestResponse :=
      { r0 with
        database := "✅ Available",
        database_url := some "✅ Configured",
        database_name := some (match b.dbName with
          | some n => n
          | none => "✅ Connected"),
        connection_status := "Connected" }
    match b.listCollectionsResult with
    | Except.ok cs =>
        Except.ok { ra with collections := cs.take 10,
                            database := "✅ Connected & Working" }
    | Except.error e =>
        Except.ok { ra with database := "⚠️  Connected but Error: " ++ strTrunc e 50 }
  else
    Except.ok { r0 with database := "⚠️  Available but not initialized" }

/-- `test_database` (`main.py` lines 187-218): run the body under the outer
`except Exception`, then unconditionally overwrite `database_url` and
`database_name` with the environment-variable presence flags, and return. -/
def test_database (b : TestBehaviour) : Except String TestResponse :=
  let r0 := testResponseInit
  let r2 : TestResponse :=
    match test_databaseBody b r0 with
    | Except.ok r => r
    | Except.error e => { r0 with database := "❌ Error: " ++ strTrunc e 50 }
  Except.ok
    { r2 with
      database_url := some (if b.envUrlSet then "✅ Set" else "❌ Not Set"),
      database_name := some (if b.envNameSet then "✅ Set" else "❌ Not Set") }

/-! ### Concrete fixtures used by witnesses and counterexamples -/

/-- A stored product document carrying a non-canonical field `extra`
alongside a canonical title: material for the `$set`-is-a-merge
counterexample. -/
def legacyElytraDoc : Doc :=
  [("title", BVal.str "Elytra"), ("extra", BVal.num 1), ("price", BVal.num 99)]

/-- A store behaviour with no database connection. -/
def noDbSeedBehaviour : SeedBehaviour :=
  { dbAvailable := false,
    findTitlesResult := Except.ok [],
    insertResult := fun _ => Except.ok "id",
    updateResult := fun _ => Except.ok () }

/-- Three stored feedback documents: two five-star (timestamps 10 and 30)
and one three-star (timestamp 20). -/
def sampleFeedbacks : List FeedbackDoc :=
  [⟨some "a", 5, none, none, 10⟩,
   ⟨none, 3, none, none, 20⟩,
   ⟨some "b", 5, none, none, 30⟩]

/-! ### Field-access lemmas for the document model -/

theorem getField_setField_self (d : Doc) (k : String) (v : BVal) :
    getField (setField d k v) k = some v := by
  induction d with
  | nil => simp [setField, getField]
  | cons kv rest ih =>
      by_cases h : kv.1 = k
      · simp [setField, h, getField]
      · simp [setField, h, getField, ih]

theorem getField_setField_ne (d : Doc) (k k' : String) (v : BVal) (h : k' ≠ k) :
    getField (setField d k v) k' = getField d k' := by
  have hsym : ¬ (k = k') := fun hh => h hh.symm
  induction d with
  | nil => simp [setField, getField, hsym]
  | cons kv rest ih =>
      obtain ⟨k1, v1⟩ := kv
      by_cases hk : k1 = k
      · subst hk
        simp [setField, getField, hsym]
      · by_cases hk' : k1 = k'
        · subst hk'
          simp [setField, getField, h, hk]
        · simp [setField, getField, hk, hk', ih]

theorem getField_removeField_ne (d : Doc) (k k' : String) (h : k' ≠ k) :
    getField (removeField d k) k' = getField d k' := by
  induction d with
  | nil => simp [removeField]
  | cons kv rest ih =>
      obtain ⟨k1, v1⟩ := kv
      by_cases hk : k1 = k
      · have hne : ¬ (k1 = k') := by rw [hk]; exact fun hh => h hh.symm
        have hsym : ¬ (k = k') := fun hh => h hh.symm
        simp [removeField, getField, hk, hne, hsym]
      · simp [removeField, getField, hk, ih]

theorem applySet_nil (d : Doc) : applySet d [] = d := rfl

theorem applySet_cons (d : Doc) (k : String) (v : BVal) (u : Doc) :
    applySet d ((k, v) :: u) = applySet (setField d k v) u := rfl

theorem getField_applySet_notMem (u : Doc) (d : Doc) (k : String)
    (h : k ∉ u.map Prod.fst) :
    getField (applySet d u) k = getField d k := by
  induction u generalizing d with
  | nil => rw [applySet_nil]
  | cons kv rest ih =>
      obtain ⟨k1, v1⟩ := kv
      simp only [List.map_cons, List.mem_cons] at h
      push_neg at h
      rw [applySet_cons, ih _ h.2, getField_setField_ne _ _ _ _ h.1]

theorem getField_applySet_mem (u : Doc) (d : Doc) (k : String) (v : BVal)
    (hnd : (u.map Prod.fst).Nodup) (hmem : (k, v) ∈ u) :
    getField (applySet d u) k = some v := by
  induction u generalizing d with
  | nil => cases hmem
  | cons kv rest ih =>
      obtain ⟨k1, v1⟩ := kv
      simp only [List.map_cons, List.nodup_cons] at hnd
      rcases List.mem_cons.mp hmem with heq | hrest
      · injection heq with hk hv
        subst hk; subst hv
        rw [applySet_cons,
          getField_applySet_notMem _ _ _ hnd.1,
          getField_setField_self]
      · rw [applySet_cons]
        exact ih _ hnd.2 hrest

theorem getField_rewriteId_ne (d : Doc) (k : String)
    (h1 : k ≠ "_id") (h2 : k ≠ "id") :
    getField (rewriteId d) k = getField d k := by
  unfold rewriteId
  cases hid : getField d "_id" with
  | none => rfl
  | some v =>
      rw [getField_setField_ne _ _ _ _ h2, getField_removeField_ne _ _ _ h1]

/-! ### Arithmetic helper -/

theorem round2_intCast (n : ℤ) : round2 ((n : ℚ)) = n := by
  have h : ((n : ℚ)) * 100 = ((n * 100 : ℤ) : ℚ) := by push_cast; ring
  rw [round2, h, Int.floor_intCast, sub_self]
  rw [if_pos (by norm_num : (0 : ℚ) < 1 / 2)]
  push_cast
  ring

/-! ### Exception-flow helpers -/

theorem swallow_ok (r : Except String Unit) : swallow r = Except.ok () := by
  cases r with
  | error e => rfl
  | ok u => cases u; rfl

theorem validateQueryInt_some_ok {v dflt lo hi : ℤ} (h1 : lo ≤ v) (h2 : v ≤ hi) :
    validateQueryInt (some v) dflt lo hi = Except.ok v := by
  simp only [validateQueryInt]
  rw [if_pos ⟨h1, h2⟩]

theorem validateQueryInt_some_err {v dflt lo hi : ℤ} (h : ¬ (lo ≤ v ∧ v ≤ hi)) :
    validateQueryInt (some v) dflt lo hi = Except.error ⟨422, "validation error"⟩ := by
  simp only [validateQueryInt]
  rw [if_neg h]

/-! ### Claim theorems -/

/-- Claim C1: for every `CreateOrderRequest` with a non-empty items list,
`POST /orders` succeeds and the persisted order document's `total_amount`
equals the sum over all items of `price * quantity`, rounded to 2 decimal
places — for any submitted per-line prices, with no reference to the catalog
(the handler takes no product data at all). -/
theorem create_order_total (payload : CreateOrderRequest)
    (orders : List OrderDoc) (now : ℤ) (newId : String)
    (h : payload.items ≠ []) :
    ∃ doc : OrderDoc,
      create_order payload orders now newId =
        (Except.ok ⟨newId, "received"⟩, orders ++ [doc])
      ∧ doc.total_amount = round2 (orderTotal payload.items)
      ∧ doc.items = payload.items
      ∧ doc.status = "pending" := by
  have hne : ¬ (payload.items.isEmpty = true) := fun hh => h (by simpa using hh)
  refine ⟨{ minecraft_username := payload.minecraft_username,
            discord := payload.discord,
            email := payload.email,
            items := payload.items,
            total_amount := round2 (orderTotal payload.items),
            status := "pending",
            notes := payload.notes,
            created_at := now }, ?_, rfl, rfl, rfl⟩
  unfold create_order
  rw [if_neg hne]

/-- Witness for C1: the spec example — one Elytra line at price 12.0 and
quantity 2 persists with `total_amount = 24`. -/
theorem create_order_total_witness :
    (∃ doc : OrderDoc,
      create_order ⟨"steve", none, none, [⟨"p1", "Elytra", 12, 2, none, none⟩], none⟩
          [] 0 "oid" = (Except.ok ⟨"oid", "received"⟩, [] ++ [doc])
      ∧ doc.total_amount = round2 (orderTotal [⟨"p1", "Elytra", 12, 2, none, none⟩])
      ∧ doc.items = [⟨"p1", "Elytra", 12, 2, none, none⟩]
      ∧ doc.status = "pending")
    ∧ round2 (orderTotal [⟨"p1", "Elytra", 12, 2, none, none⟩]) = 24 := by
  constructor
  · exact create_order_total _ _ _ _ (List.cons_ne_nil _ _)
  · have h1 : orderTotal [⟨"p1", "Elytra", 12, 2, none, none⟩] = ((24 : ℤ) : ℚ) := by
      simp [orderTotal]
      norm_num
    rw [h1, round2_intCast]
    norm_num

/-- Claim C7: `POST /orders` with an empty items list is rejected with an
HTTP 400 error carrying "No items in order", and the order collection is
unchanged. -/
theorem create_order_rejects_empty (payload : CreateOrderRequest)
    (orders : List OrderDoc) (now : ℤ) (newId : String)
    (h : payload.items = []) :
    create_order payload orders now newId =
      (Except.error ⟨400, "No items in order"⟩, orders) := by
  unfold create_order
  rw [h]
  rfl

/-- Witness for C7 at a concrete empty-cart request. -/
theorem create_order_rejects_empty_witness :
    create_order ⟨"steve", none, none, [], none⟩ [] 0 "oid" =
      (Except.error ⟨400, "No items in order"⟩, []) :=
  create_order_rejects_empty _ _ _ _ rfl

/-- Claim C10: the schema layer imposes no lower bound on `OrderItem.price`
(any price, zero or negative, passes validation as long as `quantity ≥ 1`),
catalog products by contrast require `price ≥ 0`, and a concrete order with
price `-5` and quantity `2` is accepted and persists a negative
`total_amount` of `-10`. -/
theorem order_price_unbounded :
    (∀ (pid nm : String) (p : ℚ) (q : ℤ) (vi vl : Option String),
        1 ≤ q → (OrderItem.mk pid nm p q vi vl).validPayload)
    ∧ (∀ pr : Product, pr.validPayload → 0 ≤ pr.price)
    ∧ (CreateOrderRequest.mk "steve" none none
        [⟨"p1", "Money", -5, 2, none, none⟩] none).validPayload
    ∧ (∃ doc : OrderDoc,
        create_order ⟨"steve", none, none, [⟨"p1", "Money", -5, 2, none, none⟩], none⟩
            [] 0 "oid" = (Except.ok ⟨"oid", "received"⟩, [doc])
        ∧ doc.total_amount = -10
        ∧ doc.total_amount < 0) := by
  have htot : round2 (orderTotal [⟨"p1", "Money", -5, 2, none, none⟩]) = -10 := by
    have h1 : orderTotal [⟨"p1", "Money", -5, 2, none, none⟩] = ((-10 : ℤ) : ℚ) := by
      simp [orderTotal]
      norm_num
    rw [h1, round2_intCast]
    norm_num
  refine ⟨fun _ _ _ _ _ _ hq => hq, fun pr hpr => hpr, ?_, ?_⟩
  · intro i hi
    rcases List.mem_singleton.mp hi with rfl
    show (1 : ℤ) ≤ 2
    decide
  · refine ⟨{ minecraft_username := "steve", discord := none, email := none,
              items := [⟨"p1", "Money", -5, 2, none, none⟩],
              total_amount := round2 (orderTotal [⟨"p1", "Money", -5, 2, none, none⟩]),
              status := "pending", notes := none, created_at := 0 }, rfl, htot, ?_⟩
    rw [htot]
    norm_num

/-- Witness for C10: a concrete zero-price item passes order-item
validation, and a concrete catalog product is validated as nonnegative. -/
theorem order_price_unbounded_witness :
    (OrderItem.mk "p1" "Money" 0 3 none none).validPayload
    ∧ 0 ≤ (Product.mk "Elytra" none 12 "Gear" none none true).price :=
  ⟨order_price_unbounded.1 "p1" "Money" 0 3 none none (by decide),
   order_price_unbounded.2.1 ⟨"Elytra", none, 12, "Gear", none, none, true⟩
     (by show (0 : ℚ) ≤ 12; norm_num)⟩

/-- Claim C2: every product returned by `GET /products` has a title in the
fixed allow-list, for every store state. -/
theorem products_title_allowlisted (products : List Doc) (d : Doc)
    (hd : d ∈ (list_products products).1.items) :
    ∃ t ∈ WANTED_TITLES, getField d "title" = some (BVal.str t) := by
  simp only [list_products, List.mem_map] at hd
  obtain ⟨d0, hd0, rfl⟩ := hd
  have hf : titleWanted d0 = true := (List.mem_filter.mp hd0).2
  rw [getField_rewriteId_ne d0 "title" (by decide) (by decide)]
  cases hg : getField d0 "title" with
  | none => simp [titleWanted, hg] at hf
  | some v =>
      cases v with
      | str t =>
          simp only [titleWanted, hg] at hf
          exact ⟨t, by simpa using hf, rfl⟩
      | num q => simp [titleWanted, hg] at hf
      | bool b => simp [titleWanted, hg] at hf
      | null => simp [titleWanted, hg] at hf
      | arr a => simp [titleWanted, hg] at hf
      | obj o => simp [titleWanted, hg] at hf

/-- Witness for C2: the first item served from a freshly seeded empty store
carries an allow-listed title. -/
theorem products_title_allowlisted_witness :
    ∃ t ∈ WANTED_TITLES, getField skeletonSpawnerDoc "title" = some (BVal.str t) := by
  have hmem : skeletonSpawnerDoc ∈ (list_products []).1.items := by
    have h : (list_products []).1.items = skeletonSpawnerDoc :: [moneyDoc, elytraDoc] := rfl
    rw [h]
    exact List.mem_cons_self _ _
  exact products_title_allowlisted [] skeletonSpawnerDoc hmem

/-- Claim C3, counterexample: seeding a store whose Elytra document carries
a non-canonical field `extra` leaves that field in place — the `$set`
update is a merge, so the stored document does not equal the canonical one
and pre-existing non-canonical fields survive. -/
theorem seeder_overwrite_counterexample :
    (ensure_seed_products [legacyElytraDoc]).head? =
      some (applySet legacyElytraDoc elytraDoc)
    ∧ getField (applySet legacyElytraDoc elytraDoc) "extra" = some (BVal.num 1)
    ∧ getField elytraDoc "extra" = none
    ∧ applySet legacyElytraDoc elytraDoc ≠ elytraDoc := by
  refine ⟨rfl, rfl, rfl, fun heq => ?_⟩
  have h1 : getField (applySet legacyElytraDoc elytraDoc) "extra" = some (BVal.num 1) := rfl
  rw [heq] at h1
  have h2 : getField elytraDoc "extra" = none := rfl
  rw [h2] at h1
  exact Option.noConfusion h1

/-- Claim C3, amended: for a canonical product whose title is already
present, the seeder applies a field-level `$set` merge to the first stored
document with that title: every canonical field is overwritten with its
canonical value, while stored fields outside the canonical field set
survive unchanged (a merge, not a full-document replacement). -/
theorem seeder_set_is_merge :
    (∀ (d u : Doc) (k : String) (v : BVal),
        (u.map Prod.fst).Nodup → (k, v) ∈ u →
        getField (applySet d u) k = some v)
    ∧ (∀ (d u : Doc) (k : String), k ∉ u.map Prod.fst →
        getField (applySet d u) k = getField d k)
    ∧ (∀ (pre post : List Doc) (d : Doc) (t : String) (u : Doc),
        (∀ d' ∈ pre, docTitleIs d' t = false) → docTitleIs d t = true →
        updateOneByTitle (pre ++ d :: post) t u = pre ++ applySet d u :: post) := by
  refine ⟨fun d u k v hnd hmem => getField_applySet_mem u d k v hnd hmem,
          fun d u k h => getField_applySet_notMem u d k h, ?_⟩
  intro pre post d t u hpre hd
  induction pre with
  | nil => simp [updateOneByTitle, hd]
  | cons p rest ih =>
      have hp : docTitleIs p t = false := hpre p (List.mem_cons_self _ _)
      simp [updateOneByTitle, hp,
        ih fun d' hd' => hpre d' (List.mem_cons_of_mem _ hd')]

/-- Witness for the amended C3: a concrete `$set` merge overwrites the
mentioned field, preserves an unmentioned one, and the seeder's update
targets the first matching document. -/
theorem seeder_set_is_merge_witness :
    getField (applySet legacyElytraDoc [("price", BVal.num 12)]) "price" =
      some (BVal.num 12)
    ∧ getField (applySet legacyElytraDoc [("price", BVal.num 12)]) "extra" =
      getField legacyElytraDoc "extra"
    ∧ updateOneByTitle ([] ++ legacyElytraDoc :: []) "Elytra" elytraDoc =
      [] ++ applySet legacyElytraDoc elytraDoc :: [] := by
  refine ⟨?_, ?_, ?_⟩
  · exact seeder_set_is_merge.1 legacyElytraDoc [("price", BVal.num 12)] "price"
      (BVal.num 12) (by decide) (List.mem_cons_self _ _)
  · exact seeder_set_is_merge.2.1 legacyElytraDoc [("price", BVal.num 12)] "extra"
      (by decide)
  · exact seeder_set_is_merge.2.2 [] [] legacyElytraDoc "Elytra" elytraDoc
      (fun d' hd' => absurd hd' (List.not_mem_nil _)) rfl

/-- Claim C8: starting from an empty store, one `GET /products` leaves the
store holding exactly the canonical product list (one document per
canonical title), and after a second call no title is duplicated. -/
theorem seeding_idempotent_titles :
    (list_products []).2 = DEFAULT_PRODUCTS
    ∧ productTitles (list_products []).2 = ["Skeleton Spawner", "Money", "Elytra"]
    ∧ (list_products (list_products []).2).2 = DEFAULT_PRODUCTS
    ∧ (productTitles (list_products (list_products []).2).2).Nodup :=
  ⟨rfl, rfl, rfl, by decide⟩

/-- Claim C4, counterexample: `GET /feedbacks` with `min_rating = 6` is
rejected with a 422 validation error — it does not yield a successful
response using a clamped value. -/
theorem feedbacks_clamp_counterexample :
    list_feedbacks (some []) (some 6) none =
      Except.error ⟨422, "validation error"⟩ := rfl

/-- Claim C4, amended: `GET /feedbacks` validates its query parameters
instead of clamping them — `min_rating` defaults to 4 and `limit` to 100
when absent, supplied values inside `[1,5]` and `[1,500]` are used as
given and the request succeeds, and any supplied value outside its range
is rejected with a 422 validation error. -/
theorem feedbacks_params_validated :
    (∀ fbs : List FeedbackDoc,
        list_feedbacks (some fbs) none none =
          Except.ok ⟨listFeedbacksQuery fbs 4 100⟩)
    ∧ (∀ (fbs : List FeedbackDoc) (m l : ℤ),
        1 ≤ m → m ≤ 5 → 1 ≤ l → l ≤ 500 →
        list_feedbacks (some fbs) (some m) (some l) =
          Except.ok ⟨listFeedbacksQuery fbs m l⟩)
    ∧ (∀ (store : Option (List FeedbackDoc)) (m : ℤ) (lim : Option ℤ),
        m < 1 ∨ 5 < m →
        list_feedbacks store (some m) lim = Except.error ⟨422, "validation error"⟩)
    ∧ (∀ (store : Option (List FeedbackDoc)) (m l : ℤ),
        1 ≤ m → m ≤ 5 → l < 1 ∨ 500 < l →
        list_feedbacks store (some m) (some l) =
          Except.error ⟨422, "validation error"⟩) := by
  refine ⟨fun fbs => rfl, ?_, ?_, ?_⟩
  · intro fbs m l hm1 hm5 hl1 hl500
    simp only [list_feedbacks, validateQueryInt_some_ok hm1 hm5,
      validateQueryInt_some_ok hl1 hl500]
  · intro store m lim hm
    have h : ¬ ((1 : ℤ) ≤ m ∧ m ≤ 5) := by rcases hm with h | h <;> omega
    simp only [list_feedbacks, validateQueryInt_some_err h]
  · intro store m l hm1 hm5 hl
    have h : ¬ ((1 : ℤ) ≤ l ∧ l ≤ 500) := by rcases hl with h | h <;> omega
    simp only [list_feedbacks, validateQueryInt_some_ok hm1 hm5,
      validateQueryInt_some_err h]

/-- Witness for the amended C4: concrete in-range and out-of-range
parameter values behave as stated. -/
theorem feedbacks_params_validated_witness :
    list_feedbacks (some sampleFeedbacks) none none =
      Except.ok ⟨listFeedbacksQuery sampleFeedbacks 4 100⟩
    ∧ list_feedbacks (some sampleFeedbacks) (some 5) (some 2) =
      Except.ok ⟨listFeedbacksQuery sampleFeedbacks 5 2⟩
    ∧ list_feedbacks (some sampleFeedbacks) (some 0) none =
      Except.error ⟨422, "validation error"⟩
    ∧ list_feedbacks (some sampleFeedbacks) (some 4) (some 501) =
      Except.error ⟨422, "validation error"⟩ :=
  ⟨feedbacks_params_validated.1 sampleFeedbacks,
   feedbacks_params_validated.2.1 sampleFeedbacks 5 2
     (by decide) (by decide) (by decide) (by decide),
   feedbacks_params_validated.2.2.1 (some sampleFeedbacks) 0 none (Or.inl (by decide)),
   feedbacks_params_validated.2.2.2 (some sampleFeedbacks) 4 501
     (by decide) (by decide) (Or.inr (by decide))⟩

/-- Claim C5: the seeder never raises, whatever the store does (both the
outer `try`/`except` and the `db is None` early return are covered); with
no store connection the seeder attempts no store operation, and
`GET /products` returns an empty items list rather than an error. -/
theorem seeder_never_raises :
    (∀ b : SeedBehaviour, (ensure_seed_productsE b).1 = Except.ok ())
    ∧ (∀ b : SeedBehaviour, b.dbAvailable = false →
        ensure_seed_productsE b = (Except.ok (), []))
    ∧ (∀ b : ListBehaviour, b.seed.dbAvailable = false →
        list_productsE b = Except.ok ⟨[]⟩) := by
  refine ⟨?_, ?_, ?_⟩
  · intro b
    unfold ensure_seed_productsE
    by_cases hdb : b.dbAvailable = false
    · rw [if_pos hdb]
    · rw [if_neg hdb]
      cases b.findTitlesResult with
      | error e => rfl
      | ok titles => simp [swallow_ok]
  · intro b h
    unfold ensure_seed_productsE
    rw [if_pos h]
  · intro b h
    unfold list_productsE
    rw [if_pos h]

/-- Witness for C5 at a concrete store-less behaviour. -/
theorem seeder_never_raises_witness :
    (ensure_seed_productsE noDbSeedBehaviour).1 = Except.ok ()
    ∧ ensure_seed_productsE noDbSeedBehaviour = (Except.ok (), [])
    ∧ list_productsE ⟨noDbSeedBehaviour, Except.ok []⟩ = Except.ok ⟨[]⟩ :=
  ⟨seeder_never_raises.1 noDbSeedBehaviour,
   seeder_never_raises.2.1 noDbSeedBehaviour rfl,
   seeder_never_raises.2.2 ⟨noDbSeedBehaviour, Except.ok []⟩ rfl⟩

/-- Claim C6: for every store state and every valid `min_rating` and
`limit`, `GET /feedbacks` succeeds, every returned entry has
`rating ≥ min_rating`, the entries are ordered newest-first by
`created_at`, and the number of entries never exceeds `limit`. -/
theorem feedbacks_filtered_sorted_limited (feedbacks : List FeedbackDoc)
    (m l : ℤ) (hm1 : 1 ≤ m) (hm5 : m ≤ 5) (hl1 : 1 ≤ l) (hl500 : l ≤ 500) :
    ∃ resp : FeedbacksResp,
      list_feedbacks (some feedbacks) (some m) (some l) = Except.ok resp
      ∧ (∀ f ∈ resp.items, m ≤ f.rating)
      ∧ resp.items.Pairwise (fun a b => b.created_at ≤ a.created_at)
      ∧ (resp.items.length : ℤ) ≤ l := by
  refine ⟨⟨listFeedbacksQuery feedbacks m l⟩, ?_, ?_, ?_, ?_⟩
  · simp only [list_feedbacks, validateQueryInt_some_ok hm1 hm5,
      validateQueryInt_some_ok hl1 hl500]
  · intro f hf
    simp only [listFeedbacksQuery, List.mem_map] at hf
    obtain ⟨g, hg, rfl⟩ := hf
    have hg2 : g ∈ List.insertionSort newerFirst
        (feedbacks.filter fun f => decide (m ≤ f.rating)) :=
      List.take_subset _ _ hg
    have hg3 : g ∈ feedbacks.filter fun f => decide (m ≤ f.rating) :=
      (List.perm_insertionSort _ _).mem_iff.mp hg2
    exact of_decide_eq_true (List.mem_filter.mp hg3).2
  · refine List.Pairwise.map _ (fun a b h => h) ?_
    exact List.Pairwise.sublist (List.take_sublist _ _)
      (List.sorted_insertionSort newerFirst _)
  · have h1 : (listFeedbacksQuery feedbacks m l).length ≤ l.toNat := by
      unfold listFeedbacksQuery
      rw [List.length_map]
      exact List.length_take_le _ _
    have h2 : ((listFeedbacksQuery feedbacks m l).length : ℤ) ≤ (l.toNat : ℤ) :=
      Nat.cast_le.mpr h1
    rwa [Int.toNat_of_nonneg (by linarith)] at h2

/-- Witness for C6: three stored feedbacks, `min_rating = 5`, `limit = 2`:
the response holds the two five-star entries, newest first. -/
theorem feedbacks_filtered_sorted_limited_witness :
    (∃ resp : FeedbacksResp,
      list_feedbacks (some sampleFeedbacks) (some 5) (some 2) = Except.ok resp
      ∧ (∀ f ∈ resp.items, (5 : ℤ) ≤ f.rating)
      ∧ resp.items.Pairwise (fun a b => b.created_at ≤ a.created_at)
      ∧ (resp.items.length : ℤ) ≤ 2)
    ∧ list_feedbacks (some sampleFeedbacks) (some 5) (some 2) =
      Except.ok ⟨[⟨some "b", 5, none, none, 30⟩, ⟨some "a", 5, none, none, 10⟩]⟩ :=
  ⟨feedbacks_filtered_sorted_limited sampleFeedbacks 5 2
     (by decide) (by decide) (by decide) (by decide), rfl⟩

/-- Claim C9: `GET /test` never propagates an exception — for every store
behaviour it returns a 200-equivalent status object; at most 10 collection
names are reported, the database status string stays within the fixed
prefix plus 50 characters, and when collection listing fails the embedded
error text is the raised message truncated to at most 50 characters. -/
theorem test_endpoint_total (b : TestBehaviour) :
    ∃ r : TestResponse, test_database b = Except.ok r
      ∧ r.collections.length ≤ 10
      ∧ r.database.length ≤ 75
      ∧ (∀ e, b.dbAvailable = true → b.listCollectionsResult = Except.error e →
          r.database = "⚠️  Connected but Error: " ++ strTrunc e 50
          ∧ (strTrunc e 50).length ≤ 50) := by
  have hpre : ("⚠️  Connected but Error: ").length = 25 := by decide
  obtain ⟨db, nm, lc, eu, en⟩ := b
  cases db with
  | false =>
      refine ⟨{ backend := "✅ Running",
                database := "⚠️  Available but not initialized",
                database_url := some (if eu = true then "✅ Set" else "❌ Not Set"),
                database_name := some (if en = true then "✅ Set" else "❌ Not Set"),
                connection_status := "Not Connected",
                collections := [] }, rfl, ?_, ?_, ?_⟩
      · show ([] : List String).length ≤ 10
        decide
      · show ("⚠️  Available but not initialized").length ≤ 75
        decide
      · intro e htrue _
        exact Bool.noConfusion htrue
  | true =>
      cases lc with
      | ok cs =>
          refine ⟨{ backend := "✅ Running",
                    database := "✅ Connected & Working",
                    database_url := some (if eu = true then "✅ Set" else "❌ Not Set"),
                    database_name := some (if en = true then "✅ Set" else "❌ Not Set"),
                    connection_status := "Connected",
                    collections := cs.take 10 }, rfl, ?_, ?_, ?_⟩
          · exact List.length_take_le _ _
          · show ("✅ Connected & Working").length ≤ 75
            decide
          · intro e _ herr
            exact Except.noConfusion herr
      | error e =>
          refine ⟨{ backend := "✅ Running",
                    database := "⚠️  Connected but Error: " ++ strTrunc e 50,
                    database_url := some (if eu = true then "✅ Set" else "❌ Not Set"),
                    database_name := some (if en = true then "✅ Set" else "❌ Not Set"),
                    connection_status := "Connected",
                    collections := [] }, rfl, ?_, ?_, ?_⟩
          · show ([] : List String).length ≤ 10
            decide
          · show ("⚠️  Connected but Error: " ++ strTrunc e 50).length ≤ 75
            rw [String.length_append, hpre]
            have h50 : (strTrunc e 50).length ≤ 50 := List.length_take_le _ _
            omega
          · intro e' _ herr
            injection herr with he
            subst he
            exact ⟨rfl, List.length_take_le _ _⟩

/-- Witness for C9: a behaviour whose collection listing raises "boom"
yields a 200-equivalent response embedding the truncated error text. -/
theorem test_endpoint_total_witness :
    ∃ r : TestResponse,
      test_database ⟨true, some "zen", Except.error "boom", true, false⟩ = Except.ok r
      ∧ r.database = "⚠️  Connected but Error: " ++ strTrunc "boom" 50
      ∧ (strTrunc "boom" 50).length ≤ 50 := by
  obtain ⟨r, h1, _, _, h4⟩ :=
    test_endpoint_total ⟨true, some "zen", Except.error "boom", true, false⟩
  obtain ⟨h5, h6⟩ := h4 "boom" rfl rfl
  exact ⟨r, h1, h5, h6⟩

end ZenSupply
